import Mathlib

/-!
Shallow embedding of the attiny85 skate-dryer firmware (src/main.c).

The program is a cooperative state machine over a handful of volatile
globals, driven by a polling main loop and three interrupt handlers.
We model the global state as a record, each handler as a function on
that state, and the interleaving of main-loop polls and interrupts as a
small-step relation.  Machine integers are modelled as Nat with an
explicit `% 256` where the C type is uint8_t and wrap-around can occur;
`ui_timers` (int8_t, only ever -1, 0, 1) is an Int.  The hardware
counter registers (TCNT0/TCNT1) only shift tick phase and carry no
decision logic, so they are not part of the state.  The busy-wait delay
primitive has no effect on the modelled state; its duration arithmetic
(a double in C, exact on the values used) is modelled over ℚ.
-/

namespace SkateDryer

/-- run_state_t: fan run states.  The C enum assigns codes 0..4. -/
inductive RunState where
  | RUN_NO_STATE  -- 0, initial / unknown state
  | RUN_OFF       -- 1, fan off
  | RUN_SHORT     -- 2, fan running (short duration)
  | RUN_MED       -- 3, (med duration)
  | RUN_LONG      -- 4, (long duration)
deriving DecidableEq, Repr

/-- The numeric value of each run_state_t enumerator in the C source. -/
def run_state_code : RunState → Nat
  | .RUN_NO_STATE => 0
  | .RUN_OFF => 1
  | .RUN_SHORT => 2
  | .RUN_MED => 3
  | .RUN_LONG => 4

/-- Interpret a numeric code as a run_state_t value (inverse of
`run_state_code` on 0..4; the C program only ever stores 0..4). -/
def run_state_of_code : Nat → RunState
  | 0 => .RUN_NO_STATE
  | 1 => .RUN_OFF
  | 2 => .RUN_SHORT
  | 3 => .RUN_MED
  | 4 => .RUN_LONG
  | _ => .RUN_NO_STATE

/-- ui_state_t: state of the input state machine. -/
inductive UiState where
  | UI_OFF      -- idle
  | UI_INPUT    -- accepting input
  | UI_TIMEOUT  -- finished accepting input, need to handle
deriving DecidableEq, Repr

/-- The volatile globals of main.c plus the two output lines of PORTB
(led = pin 0, fan = pin 1). -/
structure State where
  inactive_iterations : Nat      -- uint8_t
  current_run_state : RunState
  desired_run_state : RunState
  run_timers : Nat               -- uint8_t
  ui_timers : Int                -- int8_t
  sleeping : Bool
  ui_state : UiState
  buffered_clicks : Nat          -- uint8_t
  led : Bool                     -- PORTB bit LED_PIN
  fan : Bool                     -- PORTB bit FAN_PIN
deriving DecidableEq, Repr

-- Configuration constants from main.c.
def PRESCALE : ℚ := 128
def UI_MS : ℚ := 200
def DEBOUNCE_MS : ℚ := 100
def IDLE_ITERATIONS : Nat := 255
def TIMER_UI_COUNT : Int := 1
def RUN_TIMERS_INIT : Nat := 20
def RUN_TIMERS_MULTIPLIER : Nat := 20
def RUN_LEVELS : Nat := 3
def MIN_DELAY_MS : ℚ := 5

/-- delay_ms: the duration (in _delay_ms milliseconds) the primitive
busy-waits for a requested duration `ms`.  The C source divides by the
CPU prescale factor and clamps from below at MIN_DELAY_MS. -/
def delay_ms (ms : ℚ) : ℚ :=
  if ms / PRESCALE > MIN_DELAY_MS then ms / PRESCALE else MIN_DELAY_MS

/-- blink(n): each loop iteration does led_off, wait, led_on, wait,
led_off, so every iteration leaves the LED line low.  This returns the
LED line state after running the loop n times from a given LED state. -/
def blink_led : Nat → Bool → Bool
  | 0, led => led
  | n + 1, _ => blink_led n false

/-- ISR(TIMER1_OVF_vect): fan-run tick (generator B). -/
def timer1_ovf (s : State) : State :=
  if s.run_timers > 0 then
    let rt := s.run_timers - 1
    if rt = 0 then
      { s with run_timers := rt, desired_run_state := .RUN_OFF }
    else
      { s with run_timers := rt }
  else s

/-- ISR(TIMER0_OVF_vect): ui tick (generator A). -/
def timer0_ovf (s : State) : State :=
  if s.ui_timers > 0 then { s with ui_timers := s.ui_timers - 1 } else s

/-- ISR(INT0_vect): button edge.  The synchronous debounce delay does
not touch the modelled state; if not sleeping, buffered_clicks (a
uint8_t) is incremented, wrapping modulo 256. -/
def int0_isr (s : State) : State :=
  if s.sleeping then s
  else { s with buffered_clicks := (s.buffered_clicks + 1) % 256 }

/-- ui_handler: one poll of the input state machine.  Result is
(active, number of acknowledgment blinks emitted via blink(), new
state). -/
def ui_handler (s : State) : Bool × Nat × State :=
  let local_clicks := s.buffered_clicks
  let timeout : Bool := s.ui_timers == 0
  match s.ui_state with
  | .UI_OFF =>
      if local_clicks > 0 then
        (true, 0,
          { s with ui_state := .UI_INPUT, led := true,
                   ui_timers := TIMER_UI_COUNT })
      else
        (false, 0, s)
  | .UI_INPUT =>
      if timeout then
        (true, 0, { s with ui_state := .UI_TIMEOUT, ui_timers := -1 })
      else
        (false, 0, s)
  | .UI_TIMEOUT =>
      let s1 := { s with led := false }
      if local_clicks > 1 then
        let run_level0 := local_clicks - 1
        let run_level :=
          if run_level0 ≥ RUN_LEVELS then RUN_LEVELS else run_level0
        let requested :=
          run_state_of_code (run_state_code .RUN_SHORT + (run_level - 1))
        let s2 :=
          if run_level > 0 then { s1 with desired_run_state := requested }
          else s1
        let s3 := { s2 with led := blink_led run_level s2.led }
        (true, run_level,
          { s3 with ui_state := .UI_OFF, buffered_clicks := 0 })
      else
        let s2 := { s1 with desired_run_state := .RUN_OFF }
        (false, 0, { s2 with ui_state := .UI_OFF, buffered_clicks := 0 })

/-- run_state_handler: one poll of the run state machine.  Result is
(active, new state). -/
def run_state_handler (s : State) : Bool × State :=
  if s.desired_run_state = .RUN_NO_STATE then
    (decide (run_state_code s.current_run_state >
             run_state_code .RUN_OFF), s)
  else
    let s1 := { s with current_run_state := s.desired_run_state,
                       desired_run_state := .RUN_NO_STATE }
    if s1.current_run_state = .RUN_OFF then
      (false, { s1 with run_timers := 0, fan := false })
    else
      let rt := RUN_TIMERS_INIT + RUN_TIMERS_MULTIPLIER *
        (run_state_code s1.current_run_state - run_state_code .RUN_SHORT)
      (true, { s1 with fan := true, run_timers := rt })

/-- maybe_sleep: the power policy.  Result is (sleep() was invoked, new
state).  The counter is a uint8_t, so the increment wraps modulo 256.
sleep() itself sets `sleeping` for the duration of the blocking
sleep_mode() call and clears it again before returning, so its net
effect on the modelled state is nil. -/
def maybe_sleep (active : Bool) (s : State) : Bool × State :=
  if active then
    (false, { s with inactive_iterations := 0 })
  else
    let s1 := { s with
      inactive_iterations := (s.inactive_iterations + 1) % 256 }
    if s1.inactive_iterations > IDLE_ITERATIONS then
      (true, { s1 with inactive_iterations := 0 })
    else
      (false, s1)

/-- The state after init() completes: the globals as set by init() and
their static initializers, with both output lines low. -/
def initState : State :=
  { inactive_iterations := 0
    current_run_state := .RUN_OFF
    desired_run_state := .RUN_NO_STATE
    run_timers := 0
    ui_timers := -1
    sleeping := false
    ui_state := .UI_OFF
    buffered_clicks := 0
    led := false
    fan := false }

/-- Sequence of n button-edge interrupts delivered back to back. -/
def press_n : Nat → State → State
  | 0, s => s
  | n + 1, s => press_n n (int0_isr s)

/-- One atomic event of the system: an interrupt firing, or one of the
main loop polls.  The power-policy step takes the activity flag as a
parameter, over-approximating the flag actually computed by the loop
(every real execution is included). -/
inductive Step : State → State → Prop
  | timer0 (s : State) : Step s (timer0_ovf s)
  | timer1 (s : State) : Step s (timer1_ovf s)
  | button (s : State) : Step s (int0_isr s)
  | run (s : State) : Step s (run_state_handler s).2
  | ui (s : State) : Step s (ui_handler s).2.2
  | power (s : State) (a : Bool) : Step s (maybe_sleep a s).2

/-- States reachable after init() completes. -/
inductive Reachable : State → Prop
  | init : Reachable initState
  | step : ∀ s t, Reachable s → Step s t → Reachable t

/-! ### Inductive invariant

The three data-range facts the claims need: the run state machine never
holds the sentinel, the ui countdown only takes values -1, 0, 1, and
the inactivity counter stays inside its uint8_t range. -/

def Inv (s : State) : Prop :=
  s.current_run_state ≠ .RUN_NO_STATE ∧
  (s.ui_timers = -1 ∨ s.ui_timers = 0 ∨ s.ui_timers = 1) ∧
  s.inactive_iterations < 256

theorem inv_initState : Inv initState := by
  refine ⟨by simp [initState], ?_, by simp [initState]⟩
  simp [initState]

theorem inv_timer0 {s : State} (h : Inv s) : Inv (timer0_ovf s) := by
  unfold timer0_ovf
  split
  · next hpos =>
    refine ⟨h.1, ?_, h.2.2⟩
    rcases h.2.1 with h1 | h1 | h1 <;> simp [h1] at hpos ⊢
  · exact h

theorem inv_timer1 {s : State} (h : Inv s) : Inv (timer1_ovf s) := by
  unfold timer1_ovf
  dsimp only
  split_ifs <;> exact ⟨h.1, h.2.1, h.2.2⟩

theorem inv_int0 {s : State} (h : Inv s) : Inv (int0_isr s) := by
  unfold int0_isr
  split
  · exact h
  · exact ⟨h.1, h.2.1, h.2.2⟩

theorem inv_run {s : State} (h : Inv s) : Inv (run_state_handler s).2 := by
  unfold run_state_handler
  dsimp only
  split_ifs with hd hoff <;> first | exact h | exact ⟨hd, h.2.1, h.2.2⟩

theorem inv_ui {s : State} (h : Inv s) : Inv (ui_handler s).2.2 := by
  obtain ⟨h1, h2, h3⟩ := h
  unfold ui_handler
  cases hui : s.ui_state <;> dsimp only <;> split_ifs <;>
    exact ⟨h1, by first | exact h2 | simp [TIMER_UI_COUNT], h3⟩

theorem inv_power {s : State} (a : Bool) (h : Inv s) :
    Inv (maybe_sleep a s).2 := by
  unfold maybe_sleep
  dsimp only
  split_ifs <;> exact ⟨h.1, h.2.1, by dsimp only; omega⟩

theorem inv_step {s t : State} (h : Inv s) (hst : Step s t) : Inv t := by
  cases hst with
  | timer0 => exact inv_timer0 h
  | timer1 => exact inv_timer1 h
  | button => exact inv_int0 h
  | run => exact inv_run h
  | ui => exact inv_ui h
  | power a => exact inv_power a h

theorem reachable_inv {s : State} (h : Reachable s) : Inv s := by
  induction h with
  | init => exact inv_initState
  | step s t _ hst ih => exact inv_step ih hst

/-- Every iteration of the blink loop ends with the LED line low. -/
theorem blink_led_false (n : Nat) : blink_led n false = false := by
  induction n with
  | zero => rfl
  | succ n ih => exact ih

/-! ### Claim theorems -/

/-- C1: the power policy never reaches sleep entry.  `inactive_iterations`
is a uint8_t, so after the wrapping increment it is at most 255 and the
strict comparison with IDLE_ITERATIONS = 255 is never true: maybe_sleep
never invokes sleep(), from any state and for any activity flag.  The
second conjunct records the concrete failure: with the counter at the
threshold 255, a fully-inactive iteration wraps it to 0 without
sleeping, so no finite number of consecutive inactive iterations ever
enters sleep. -/
theorem sleep_never_entered :
    (∀ (s : State) (a : Bool), (maybe_sleep a s).1 = false) ∧
    maybe_sleep false { initState with inactive_iterations := 255 } =
      (false, { initState with inactive_iterations := 0 }) := by
  constructor
  · intro s a
    unfold maybe_sleep
    dsimp only
    split_ifs with ha hgt
    · rfl
    · exfalso
      unfold IDLE_ITERATIONS at hgt
      omega
    · rfl
  · decide

/-- C3 counterexample: delay_ms does not wait DEBOUNCE_MS / PRESCALE for
the 100 ms debounce request; the quotient 100/128 is below the 5 ms
floor and the wait is clamped to MIN_DELAY_MS. -/
theorem delay_uniformity_cex :
    delay_ms DEBOUNCE_MS ≠ DEBOUNCE_MS / PRESCALE ∧
    delay_ms DEBOUNCE_MS = MIN_DELAY_MS := by
  constructor <;>
    · unfold delay_ms DEBOUNCE_MS PRESCALE MIN_DELAY_MS
      norm_num

/-- C3 (amended): delay_ms waits max(ms / PRESCALE, MIN_DELAY_MS)
milliseconds, so the conversion factor only applies to requests above
the 5 ms floor; both the 100 ms debounce and the 200 ms blink delay are
clamped to the floor. -/
theorem delay_ms_clamped (ms : ℚ) :
    delay_ms ms = max (ms / PRESCALE) MIN_DELAY_MS ∧
    delay_ms DEBOUNCE_MS = MIN_DELAY_MS ∧
    delay_ms UI_MS = MIN_DELAY_MS := by
  refine ⟨?_, ?_, ?_⟩
  · unfold delay_ms
    rcases le_or_lt (ms / PRESCALE) MIN_DELAY_MS with h | h
    · rw [if_neg (not_lt.mpr h), max_eq_right h]
    · rw [if_pos h, max_eq_left h.le]
  · unfold delay_ms DEBOUNCE_MS PRESCALE MIN_DELAY_MS
    norm_num
  · unfold delay_ms UI_MS PRESCALE MIN_DELAY_MS
    norm_num

/-- C4: when polled with a pending (non-sentinel) request, the run state
machine copies it into current_run_state, clears the request, and then
either shuts down (Off: timer zeroed, fan off, inactive) or starts a
run (fan on, RunTimer = RUN_TIMERS_INIT + RUN_TIMERS_MULTIPLIER *
level_index, active). -/
theorem run_transition (s : State)
    (h : s.desired_run_state ≠ RunState.RUN_NO_STATE) :
    (run_state_handler s).2.current_run_state = s.desired_run_state ∧
    (run_state_handler s).2.desired_run_state = RunState.RUN_NO_STATE ∧
    (s.desired_run_state = RunState.RUN_OFF →
      (run_state_handler s).1 = false ∧
      (run_state_handler s).2.run_timers = 0 ∧
      (run_state_handler s).2.fan = false) ∧
    (s.desired_run_state ≠ RunState.RUN_OFF →
      (run_state_handler s).1 = true ∧
      (run_state_handler s).2.fan = true ∧
      (run_state_handler s).2.run_timers =
        RUN_TIMERS_INIT + RUN_TIMERS_MULTIPLIER *
          (run_state_code s.desired_run_state -
           run_state_code RunState.RUN_SHORT)) := by
  unfold run_state_handler
  dsimp only
  rw [if_neg h]
  split_ifs with hoff
  · exact ⟨rfl, rfl, fun _ => ⟨rfl, rfl, rfl⟩, fun hne => absurd hoff hne⟩
  · exact ⟨rfl, rfl, fun hh => absurd hh hoff, fun _ => ⟨rfl, rfl, rfl⟩⟩

/-- C4 witness at a concrete pending Med request. -/
theorem run_transition_witness :
    (run_state_handler
      { initState with
          desired_run_state := RunState.RUN_MED }).2.current_run_state =
      RunState.RUN_MED :=
  (run_transition
    { initState with desired_run_state := RunState.RUN_MED }
    (by decide)).1

/-- C5: polling the run state machine under the sentinel changes nothing
at all (whole-state no-op, hence current_run_state, RunTimer and the
fan/LED outputs in particular), and reports active exactly when
current_run_state is an on-state Short/Med/Long. -/
theorem run_poll_noop (s : State)
    (h : s.desired_run_state = RunState.RUN_NO_STATE) :
    (run_state_handler s).2 = s ∧
    ((run_state_handler s).1 = true ↔
      (s.current_run_state = RunState.RUN_SHORT ∨
       s.current_run_state = RunState.RUN_MED ∨
       s.current_run_state = RunState.RUN_LONG)) := by
  unfold run_state_handler
  rw [if_pos h]
  refine ⟨rfl, ?_⟩
  dsimp only
  rw [decide_eq_true_iff]
  cases s.current_run_state <;> decide

/-- C5 witness at the post-init state. -/
theorem run_poll_noop_witness :
    (run_state_handler initState).2 = initState :=
  (run_poll_noop initState rfl).1

/-- C6: on a fan-timer overflow the handler is the identity when
RunTimer is zero, decrements it otherwise, requests Off exactly when
the decrement reaches zero, and never writes any other value to
desired_run_state (all other state is untouched, as the whole-state
equations show). -/
theorem tick_generator_b (s : State) :
    (s.run_timers = 0 → timer1_ovf s = s) ∧
    (s.run_timers = 1 →
      timer1_ovf s =
        { s with run_timers := 0,
                 desired_run_state := RunState.RUN_OFF }) ∧
    (1 < s.run_timers →
      timer1_ovf s = { s with run_timers := s.run_timers - 1 }) ∧
    ((timer1_ovf s).desired_run_state = s.desired_run_state ∨
     (timer1_ovf s).desired_run_state = RunState.RUN_OFF) := by
  refine ⟨fun h => ?_, fun h => ?_, fun h => ?_, ?_⟩ <;>
    unfold timer1_ovf <;> dsimp only <;> split_ifs <;>
    first
      | rfl
      | omega
      | simp_all

/-- C6 witness: the decrement that reaches zero requests Off. -/
theorem tick_generator_b_witness :
    timer1_ovf { initState with run_timers := 1 } =
      { initState with run_timers := 0,
                       desired_run_state := RunState.RUN_OFF } :=
  (tick_generator_b { initState with run_timers := 1 }).2.1 rfl

/-- C8: a poll of the input state machine in Timeout always leaves the
LED off, the click buffer cleared, and the machine back in Off. -/
theorem timeout_never_persists (s : State)
    (h : s.ui_state = UiState.UI_TIMEOUT) :
    (ui_handler s).2.2.ui_state = UiState.UI_OFF ∧
    (ui_handler s).2.2.buffered_clicks = 0 ∧
    (ui_handler s).2.2.led = false := by
  unfold ui_handler
  rw [h]
  dsimp only
  split_ifs <;>
    first
      | exact ⟨rfl, rfl, blink_led_false _⟩
      | exact ⟨rfl, rfl, rfl⟩

/-- C8 witness at a concrete Timeout state. -/
theorem timeout_never_persists_witness :
    (ui_handler
      { initState with ui_state := UiState.UI_TIMEOUT }).2.2.ui_state =
      UiState.UI_OFF :=
  (timeout_never_persists
    { initState with ui_state := UiState.UI_TIMEOUT } rfl).1

/-- C9 counterexample: with the click buffer at 255 a button edge wraps
it to 0 (buffered_clicks is a uint8_t), not to the 256 an exact
increment would give. -/
theorem button_wrap_cex :
    (int0_isr
      { initState with buffered_clicks := 255 }).buffered_clicks = 0 ∧
    ({ initState with buffered_clicks := 255 } : State).buffered_clicks
      + 1 = 256 := by
  exact ⟨rfl, rfl⟩

/-- C9 (amended): a button edge increments buffered_clicks by one
modulo 256 exactly when the sleeping flag is clear, is a whole-state
no-op when it is set, and in either case changes no field other than
buffered_clicks. -/
theorem button_handler_frame (s : State) :
    (s.sleeping = false →
      (int0_isr s).buffered_clicks = (s.buffered_clicks + 1) % 256) ∧
    (s.sleeping = true → int0_isr s = s) ∧
    (int0_isr s).ui_state = s.ui_state ∧
    (int0_isr s).ui_timers = s.ui_timers ∧
    (int0_isr s).run_timers = s.run_timers ∧
    (int0_isr s).inactive_iterations = s.inactive_iterations ∧
    (int0_isr s).current_run_state = s.current_run_state ∧
    (int0_isr s).desired_run_state = s.desired_run_state ∧
    (int0_isr s).sleeping = s.sleeping ∧
    (int0_isr s).led = s.led ∧
    (int0_isr s).fan = s.fan := by
  unfold int0_isr
  split_ifs with hsl <;>
    refine ⟨fun h => ?_, fun h => ?_,
      rfl, rfl, rfl, rfl, rfl, rfl, rfl, rfl, rfl⟩ <;>
    simp_all

/-- C9 witness: awake increment at the post-init state. -/
theorem button_handler_frame_witness :
    (int0_isr initState).buffered_clicks =
      (initState.buffered_clicks + 1) % 256 :=
  (button_handler_frame initState).1 rfl

/-- C7: in every state reachable after init, current_run_state is not
the sentinel; the fan-timer interrupt only ever writes Off to
desired_run_state, the input state machine only ever writes non-sentinel
values to it, and under the sentinel the run state machine leaves
current_run_state untouched. -/
theorem current_state_never_sentinel :
    (∀ s, Reachable s →
      s.current_run_state ≠ RunState.RUN_NO_STATE) ∧
    (∀ s : State,
      (timer1_ovf s).desired_run_state = s.desired_run_state ∨
      (timer1_ovf s).desired_run_state = RunState.RUN_OFF) ∧
    (∀ s : State,
      (ui_handler s).2.2.desired_run_state = s.desired_run_state ∨
      (ui_handler s).2.2.desired_run_state ≠ RunState.RUN_NO_STATE) ∧
    (∀ s : State, s.desired_run_state = RunState.RUN_NO_STATE →
      (run_state_handler s).2.current_run_state = s.current_run_state) := by
  refine ⟨fun s hs => (reachable_inv hs).1, fun s => ?_, fun s => ?_,
    fun s h => ?_⟩
  · unfold timer1_ovf
    dsimp only
    split_ifs <;> first | (left; rfl) | (right; rfl)
  · unfold ui_handler
    cases hui : s.ui_state <;> dsimp only <;> split_ifs
    all_goals first
      | (left; rfl)
      | (exfalso; unfold RUN_LEVELS at *; omega)
      | (right; simp [run_state_of_code, run_state_code, RUN_LEVELS]; done)
      | (right
         have h4 : s.buffered_clicks - 1 - 1 = 0 ∨
             s.buffered_clicks - 1 - 1 = 1 := by
           unfold RUN_LEVELS at *
           omega
         rcases h4 with h4 | h4 <;>
           simp [h4, run_state_code, run_state_of_code])
  · unfold run_state_handler
    rw [if_pos h]

/-- C7 witness: the invariant at the post-init state. -/
theorem current_state_never_sentinel_witness :
    initState.current_run_state ≠ RunState.RUN_NO_STATE :=
  current_state_never_sentinel.1 initState Reachable.init

/-- C10: in every reachable state the ui countdown holds only -1
(disabled), 0 or 1; the ui-timer interrupt is the identity unless the
countdown is positive; opening the input window sets the countdown to
TIMER_UI_COUNT = 1 and the timeout transition disables it; and from the
just-opened value 1 a single generator-A tick brings it to 0, closing
the window at the next poll. -/
theorem ui_timer_range :
    (∀ s, Reachable s →
      s.ui_timers = -1 ∨ s.ui_timers = 0 ∨ s.ui_timers = 1) ∧
    (∀ s : State, s.ui_timers ≤ 0 → timer0_ovf s = s) ∧
    (∀ s : State, s.ui_state = UiState.UI_OFF → 0 < s.buffered_clicks →
      (ui_handler s).2.2.ui_timers = TIMER_UI_COUNT) ∧
    (∀ s : State, s.ui_state = UiState.UI_INPUT → s.ui_timers = 0 →
      (ui_handler s).2.2.ui_timers = -1) ∧
    (∀ s : State, s.ui_timers = 1 → (timer0_ovf s).ui_timers = 0) := by
  refine ⟨fun s hs => (reachable_inv hs).2.1, fun s h => ?_,
    fun s h hc => ?_, fun s h ht => ?_, fun s h => ?_⟩
  · unfold timer0_ovf
    rw [if_neg (by omega)]
  · unfold ui_handler
    rw [h]
    dsimp only
    rw [if_pos hc]
  · unfold ui_handler
    rw [h]
    dsimp only
    rw [if_pos (by simp [ht])]
  · unfold timer0_ovf
    rw [if_pos (by omega)]
    dsimp only
    omega

/-- C10 witness: the countdown range at the post-init state. -/
theorem ui_timer_range_witness :
    initState.ui_timers = -1 ∨ initState.ui_timers = 0 ∨
      initState.ui_timers = 1 :=
  ui_timer_range.1 initState Reachable.init

/-- While awake, n button edges only accumulate into the wrapping
uint8_t click counter. -/
theorem press_n_clicks (n : Nat) (s : State) (hsl : s.sleeping = false)
    (hc : s.buffered_clicks < 256) :
    press_n n s =
      { s with buffered_clicks := (s.buffered_clicks + n) % 256 } := by
  induction n generalizing s with
  | zero =>
    show s = _
    rw [Nat.add_zero, Nat.mod_eq_of_lt hc]
  | succ n ih =>
    have hstep : int0_isr s =
        { s with buffered_clicks := (s.buffered_clicks + 1) % 256 } := by
      unfold int0_isr
      rw [if_neg (by simp [hsl])]
    show press_n n (int0_isr s) = _
    rw [hstep,
      ih { s with buffered_clicks := (s.buffered_clicks + 1) % 256 }
        hsl (Nat.mod_lt _ (by omega))]
    have hm : ((s.buffered_clicks + 1) % 256 + n) % 256 =
        (s.buffered_clicks + (n + 1)) % 256 := by omega
    rw [hm]

set_option maxRecDepth 4000 in
/-- C2 counterexample: 256 button edges within one window wrap the
uint8_t click buffer back to 0, so the Timeout poll resolves to Off
with zero acknowledgment blinks instead of the claimed
run_level = min(256 - 1, 3) = 3 (Long, three blinks). -/
theorem multi_click_resolution_cex :
    (ui_handler (press_n 256
      { initState with
          ui_state := UiState.UI_TIMEOUT })).2.2.desired_run_state =
      RunState.RUN_OFF ∧
    (ui_handler (press_n 256
      { initState with ui_state := UiState.UI_TIMEOUT })).2.1 = 0 ∧
    RunState.RUN_OFF ≠
      run_state_of_code
        (run_state_code RunState.RUN_SHORT +
          (min (256 - 1) RUN_LEVELS - 1)) := by
  refine ⟨by decide, by decide, by decide⟩

/-- C2 (amended to 1 ≤ N ≤ 255, the uint8_t range of the click
buffer): N button presses accumulated in one input window resolve, at
the Timeout poll, to run_level = min(N - 1, RUN_LEVELS) with
desired_run_state = Short + (run_level - 1) and run_level
acknowledgment blinks when N > 1 (2 → Short, 3 → Med, ≥ 4 → Long), and
to an Off request with zero blinks when N = 1. -/
theorem multi_click_resolution (s : State) (N : Nat)
    (hui : s.ui_state = UiState.UI_TIMEOUT)
    (hsl : s.sleeping = false)
    (hbc : s.buffered_clicks = 0)
    (h1 : 1 ≤ N) (h255 : N ≤ 255) :
    (1 < N →
      (ui_handler (press_n N s)).2.2.desired_run_state =
        run_state_of_code
          (run_state_code RunState.RUN_SHORT +
            (min (N - 1) RUN_LEVELS - 1)) ∧
      (ui_handler (press_n N s)).2.1 = min (N - 1) RUN_LEVELS ∧
      (ui_handler (press_n N s)).1 = true) ∧
    (N = 1 →
      (ui_handler (press_n N s)).2.2.desired_run_state =
        RunState.RUN_OFF ∧
      (ui_handler (press_n N s)).2.1 = 0) := by
  have hp : press_n N s = { s with buffered_clicks := N } := by
    rw [press_n_clicks N s hsl (by omega), hbc]
    have : (0 + N) % 256 = N := by omega
    rw [this]
  rw [hp]
  unfold ui_handler
  dsimp only
  rw [hui]
  dsimp only
  constructor
  · intro hgt
    rw [if_pos hgt]
    by_cases hcap : N - 1 ≥ RUN_LEVELS
    · have hmin : min (N - 1) RUN_LEVELS = RUN_LEVELS := by
        unfold RUN_LEVELS at *
        omega
      rw [if_pos hcap, if_pos (by unfold RUN_LEVELS; omega), hmin]
      exact ⟨rfl, rfl, rfl⟩
    · have hmin : min (N - 1) RUN_LEVELS = N - 1 := by
        unfold RUN_LEVELS at *
        omega
      rw [if_neg hcap, if_pos (by omega), hmin]
      exact ⟨rfl, rfl, rfl⟩
  · intro heq
    subst heq
    rw [if_neg (by omega)]
    exact ⟨rfl, rfl⟩

/-- C2 witness: three presses resolve to Med with two blinks. -/
theorem multi_click_resolution_witness :
    (ui_handler (press_n 3
      { initState with
          ui_state := UiState.UI_TIMEOUT })).2.2.desired_run_state =
      run_state_of_code
        (run_state_code RunState.RUN_SHORT +
          (min (3 - 1) RUN_LEVELS - 1)) :=
  ((multi_click_resolution
    { initState with ui_state := UiState.UI_TIMEOUT } 3
    rfl rfl rfl (by omega) (by omega)).1 (by omega)).1

end SkateDryer
